import Mathlib

/-!
Verification development for the GymApp repository.

The repository is a thin client over a hosted backend. The parts with
checkable behaviour are embedded here as executable Lean definitions:

* the Service Façade (`src/services/supabase.ts`): `followUser`,
  `unfollowUser`, `isFollowing`, `toggleWorkoutLike`, `createWorkout`,
  `getFollowingWorkouts`, each a single gateway round trip normalised to a
  `data`/`error` pair.  The remote database is modelled by `RemoteDB`
  (lists of follow edges, like rows and workout rows), and the PostgREST
  `.single()` call by `singleRow`, which yields a `PGRST116` error when the
  row set is not a singleton.  Each façade operation also returns the list
  of gateway requests it issued (`Req`), so that "no write was issued" is
  a provable statement.
* the Session Store (`src/contexts/AuthContext.tsx`): `AuthState` with the
  handlers `signIn`, `signUp`, `signOut`, `updateProfile`,
  `refreshProfile`, `fetchProfile`, `onAuthStateChange` and
  `getInitialSession`; remote outcomes are passed in as explicit
  parameters since the store itself is deterministic in them.
* the Home screen controller (`src/screens/HomeScreen.tsx`):
  `HomeState` with `fetchWorkoutsRun` / `onRefreshStart` / `onRefreshRun`.
* the Follow Button (`src/components/FollowButton.tsx`): `FBState` with
  `checkFollowStatus`, `handleToggleFollow`, the render guard
  `followButtonRendered` and the press path `pressFollowButton`, plus the
  parent callback `handleFollowChange` of `UserProfileScreen.tsx`.
-/

/-- Error values that flow through the façade's `error` field: the literal
"Not authenticated" / "No user logged in" strings returned before a write,
or a PostgREST error identified by its code. -/
inductive Err where
  | notAuthenticated (msg : String)
  | pg (code : String)
deriving DecidableEq, Repr

/-- PostgREST error object as seen by the client; only the code matters. -/
structure PGErr where
  code : String
deriving DecidableEq, Repr

/-- Behaviour of PostgREST `.single()`: exactly one row yields the row and
no error; zero or several rows yield no data and error code `PGRST116`. -/
def singleRow {α : Type} (rows : List α) : Option α × Option PGErr :=
  match rows with
  | [a] => (some a, none)
  | _ => (none, some ⟨"PGRST116"⟩)

/-- Gateway requests a façade operation can issue; a façade call's request
trace records what actually went over the wire. -/
inductive Req where
  | authGetUser
  | followsInsert (follower following : String)
  | followsDelete (follower following : String)
  | followsSelect
  | likesSelect (uid wid : String)
  | likesInsert (uid wid : String)
  | likesDelete (uid wid : String)
  | workoutsInsert (owner : String)
  | workoutsSelect
  | profilesUpdate (id : String)
deriving DecidableEq, Repr

/-- Workout row as stored remotely (fields the in-scope logic reads). -/
structure Workout where
  id : String
  user_id : String
  is_public : Bool
  created_at : Nat
deriving DecidableEq, Repr

/-- Insert payload for `createWorkout`; the source spreads the caller's
record and then overrides `user_id` with the session user's id. -/
structure WorkoutInsert where
  id : String
  user_id : String
  is_public : Bool
  created_at : Nat
deriving DecidableEq, Repr

/-- Remote relational state the façade operations read and write:
`follows` rows are `(follower_id, following_id)` pairs, `likes` rows are
`(user_id, workout_id)` pairs. -/
structure RemoteDB where
  follows : List (String × String)
  likes : List (String × String)
  workouts : List Workout
deriving DecidableEq, Repr

/-- Like rows joined onto a workout by the list queries
(`workout_likes (user_id)` in the select). -/
def workoutLikes (db : RemoteDB) (wid : String) : List String :=
  (db.likes.filter (fun l => l.2 == wid)).map (fun l => l.1)

/-- Aggregate like count a list fetch reports for a workout: the length of
its joined `workout_likes` rows. -/
def likeCount (db : RemoteDB) (wid : String) : Nat :=
  (workoutLikes db wid).length

/-- followService.followUser: resolves the acting user from the session
(`supabase.auth.getUser()`); without one it returns "Not authenticated"
and issues no write; with one it inserts the edge keyed by the session
user's id. -/
def followUser (sess : Option String) (db : RemoteDB) (followingId : String) :
    Option Err × RemoteDB × List Req :=
  match sess with
  | none => (some (Err.notAuthenticated "Not authenticated"), db, [Req.authGetUser])
  | some uid =>
      (none, { db with follows := db.follows ++ [(uid, followingId)] },
       [Req.authGetUser, Req.followsInsert uid followingId])

/-- followService.unfollowUser: deletes the rows matching
`follower_id = session user` and `following_id = target`. -/
def unfollowUser (sess : Option String) (db : RemoteDB) (followingId : String) :
    Option Err × RemoteDB × List Req :=
  match sess with
  | none => (some (Err.notAuthenticated "Not authenticated"), db, [Req.authGetUser])
  | some uid =>
      (none,
       { db with follows :=
           db.follows.filter (fun e => !(e.1 == uid && e.2 == followingId)) },
       [Req.authGetUser, Req.followsDelete uid followingId])

/-- followService.isFollowing: single-row existence check on the
`(session user, target)` edge; a `PGRST116` error (no row) is mapped to no
error, anything else is passed through. -/
def isFollowing (sess : Option String) (db : RemoteDB) (followingId : String) :
    Bool × Option Err × List Req :=
  match sess with
  | none => (false, some (Err.notAuthenticated "Not authenticated"), [Req.authGetUser])
  | some uid =>
      match singleRow (db.follows.filter (fun e => e.1 == uid && e.2 == followingId)) with
      | (data, err) =>
          (data.isSome,
           match err with
           | some e => if e.code = "PGRST116" then none else some (Err.pg e.code)
           | none => none,
           [Req.authGetUser, Req.followsSelect])

/-- workoutService.toggleWorkoutLike: re-derives liked state with a
single-row existence check on `(session user, workout)` (the check's error
is discarded, only its data is inspected), then deletes the like when
present (reporting `liked = false`) or inserts it when absent (reporting
`liked = true`). -/
def toggleWorkoutLike (sess : Option String) (db : RemoteDB) (workoutId : String) :
    Option Bool × Option Err × RemoteDB × List Req :=
  match sess with
  | none => (none, some (Err.notAuthenticated "Not authenticated"), db, [Req.authGetUser])
  | some uid =>
      match (singleRow (db.likes.filter (fun l => l.1 == uid && l.2 == workoutId))).1 with
      | some _ =>
          (some false, none,
           { db with likes := db.likes.filter (fun l => !(l.1 == uid && l.2 == workoutId)) },
           [Req.authGetUser, Req.likesSelect uid workoutId, Req.likesDelete uid workoutId])
      | none =>
          (some true, none,
           { db with likes := db.likes ++ [(uid, workoutId)] },
           [Req.authGetUser, Req.likesSelect uid workoutId, Req.likesInsert uid workoutId])

/-- workoutService.createWorkout: spreads the caller's record but sets
`user_id` to the session user's id before inserting. -/
def createWorkout (sess : Option String) (db : RemoteDB) (w : WorkoutInsert) :
    Option Workout × Option Err × RemoteDB × List Req :=
  match sess with
  | none => (none, some (Err.notAuthenticated "Not authenticated"), db, [Req.authGetUser])
  | some uid =>
      (some ⟨w.id, uid, w.is_public, w.created_at⟩, none,
       { db with workouts := db.workouts ++ [⟨w.id, uid, w.is_public, w.created_at⟩] },
       [Req.authGetUser, Req.workoutsInsert uid])

/-- workoutService.getFollowingWorkouts: unauthenticated yields
`data = [], error = Not authenticated`; a failed follows query yields
`data = [], error`; an empty follow set short-circuits to
`data = [], error = null` without issuing the workouts query; otherwise it
fetches the public workouts of the followed users. -/
def getFollowingWorkouts (sess : Option String) (followsErr : Option Err)
    (db : RemoteDB) : List Workout × Option Err × List Req :=
  match sess with
  | none => ([], some (Err.notAuthenticated "Not authenticated"), [Req.authGetUser])
  | some uid =>
      match followsErr with
      | some e => ([], some e, [Req.authGetUser, Req.followsSelect])
      | none =>
          match (db.follows.filter (fun e => e.1 == uid)).map (fun e => e.2) with
          | [] => ([], none, [Req.authGetUser, Req.followsSelect])
          | followingIds =>
              (db.workouts.filter
                 (fun w => w.is_public && followingIds.contains w.user_id),
               none, [Req.authGetUser, Req.followsSelect, Req.workoutsSelect])

/-- Profile row (fields the Session Store logic reads back). -/
structure Profile where
  id : String
  username : Option String
  full_name : Option String
deriving DecidableEq, Repr

/-- Session record held by the Session Store: the credential together with
the user it is bound to, as in the gateway's `Session` object. -/
structure SessionRec where
  userId : String
  token : String
deriving DecidableEq, Repr

/-- Session Store state (`AuthProvider` in `src/contexts/AuthContext.tsx`):
`user` is the identity, `session` the credential, `profile` the cached
profile row, `loading` the initializing flag. -/
structure AuthState where
  user : Option String
  session : Option SessionRec
  profile : Option Profile
  loading : Bool
deriving DecidableEq, Repr

/-- AuthContext.fetchProfile: on a gateway error (or thrown exception) the
stored profile is left untouched; on success it is replaced with the
returned row. -/
def fetchProfile (st : AuthState) (remote : Except Err Profile) : AuthState :=
  match remote with
  | Except.error _ => st
  | Except.ok p => { st with profile := some p }

/-- AuthContext.signIn: sets the loading flag, delegates to the gateway,
clears the flag and returns the gateway's error value; identity and
profile population happen only through the session-change subscription. -/
def signIn (st : AuthState) (remoteErr : Option Err) : AuthState × Option Err :=
  ({ st with loading := false }, remoteErr)

/-- AuthContext.signUp: same observable contract as `signIn`. -/
def signUp (st : AuthState) (remoteErr : Option Err) : AuthState × Option Err :=
  ({ st with loading := false }, remoteErr)

/-- AuthContext.signOut: sets loading, requests remote sign-out, then
clears user, session and profile unconditionally — the remote result is
never consulted. -/
def signOut (st : AuthState) (remoteErr : Option Err) : AuthState :=
  { user := none, session := none, profile := none, loading := false }

/-- AuthContext.updateProfile: with no identity it returns the
"No user logged in" error without issuing the profiles update; otherwise
it issues the update keyed by the current identity's id and, on success
with data, replaces the local profile with the returned row. -/
def updateProfile (st : AuthState) (remote : Option Profile × Option Err) :
    AuthState × Option Err × List Req :=
  match st.user with
  | none => (st, some (Err.notAuthenticated "No user logged in"), [])
  | some uid =>
      match remote with
      | (data, err) =>
          (match err, data with
           | none, some p => { st with profile := some p }
           | _, _ => st,
           err, [Req.profilesUpdate uid])

/-- AuthContext.refreshProfile: no-op when unauthenticated, otherwise a
profile re-fetch for the current identity. -/
def refreshProfile (st : AuthState) (remote : Except Err Profile) : AuthState :=
  match st.user with
  | none => st
  | some _ => fetchProfile st remote

/-- AuthContext onAuthStateChange handler: every event replaces session
and user from the event's session; an event carrying a session re-fetches
the profile, one carrying none clears it; loading ends false. -/
def onAuthStateChange (st : AuthState) (session : Option SessionRec)
    (profileRemote : Except Err Profile) : AuthState :=
  match session with
  | some s =>
      { fetchProfile { st with session := some s, user := some s.userId } profileRemote
        with loading := false }
  | none =>
      { st with session := none, user := none, profile := none, loading := false }

/-- AuthContext.getInitialSession (bootstrap): when a session is present it
populates session and user and fetches the profile; loading is cleared in
every outcome. -/
def getInitialSession (st : AuthState) (sessionRemote : Option SessionRec × Option Err)
    (profileRemote : Except Err Profile) : AuthState :=
  match sessionRemote.1 with
  | some s =>
      { fetchProfile { st with session := some s, user := some s.userId } profileRemote
        with loading := false }
  | none => { st with loading := false }

/-- One completed Session Store operation together with the remote
outcomes it observed. -/
inductive AuthOp where
  | signInOp (remoteErr : Option Err)
  | signUpOp (remoteErr : Option Err)
  | signOutOp (remoteErr : Option Err)
  | authChangeOp (session : Option SessionRec) (profileRemote : Except Err Profile)
  | updateProfileOp (remote : Option Profile × Option Err)
  | refreshProfileOp (remote : Except Err Profile)
  | bootstrapOp (sessionRemote : Option SessionRec × Option Err)
      (profileRemote : Except Err Profile)

/-- State reached after one completed Session Store operation. -/
def applyAuthOp (st : AuthState) (op : AuthOp) : AuthState :=
  match op with
  | AuthOp.signInOp e => (signIn st e).1
  | AuthOp.signUpOp e => (signUp st e).1
  | AuthOp.signOutOp e => signOut st e
  | AuthOp.authChangeOp s pr => onAuthStateChange st s pr
  | AuthOp.updateProfileOp r => (updateProfile st r).1
  | AuthOp.refreshProfileOp r => refreshProfile st r
  | AuthOp.bootstrapOp sr pr => getInitialSession st sr pr

/-- Home screen controller state (`src/screens/HomeScreen.tsx`):
`workouts` is the displayed items list, `loading` the full-screen spinner
flag, `refreshing` the pull-to-refresh flag. -/
structure HomeState where
  workouts : List Workout
  loading : Bool
  refreshing : Bool
deriving DecidableEq, Repr

/-- Outcome of one `getPublicWorkouts` round trip as seen by the screen:
a data list, an error result, or a thrown exception. -/
inductive FetchOutcome where
  | success (data : List Workout)
  | failure
  | thrown
deriving DecidableEq, Repr

/-- Whether a fetch outcome delivered data. -/
def FetchOutcome.isSuccess : FetchOutcome → Bool
  | FetchOutcome.success _ => true
  | _ => false

/-- HomeScreen.fetchWorkouts run to completion: a non-refresh call first
sets `loading`; the error and exception paths leave `workouts` untouched;
the `finally` block clears `loading` always and `refreshing` when the call
was a refresh. -/
def fetchWorkoutsRun (st : HomeState) (isRefresh : Bool) (o : FetchOutcome) : HomeState :=
  match o with
  | FetchOutcome.success data =>
      { workouts := data, loading := false,
        refreshing := if isRefresh then false else st.refreshing }
  | FetchOutcome.failure =>
      { st with
          loading := false,
          refreshing := if isRefresh then false else st.refreshing }
  | FetchOutcome.thrown =>
      { st with
          loading := false,
          refreshing := if isRefresh then false else st.refreshing }

/-- HomeScreen.onRefresh before its fetch resolves: only `refreshing` is
raised; `workouts` and `loading` are untouched. -/
def onRefreshStart (st : HomeState) : HomeState :=
  { st with refreshing := true }

/-- HomeScreen.onRefresh run to completion: raise `refreshing`, then run
the fetch in refresh mode. -/
def onRefreshRun (st : HomeState) (o : FetchOutcome) : HomeState :=
  fetchWorkoutsRun (onRefreshStart st) true o

/-- Follow Button local state (`src/components/FollowButton.tsx`):
`isFollowing` is the displayed state, `loading` the busy sub-flag during a
toggle, `checkingStatus` the initial-check flag. -/
structure FBState where
  isFollowing : Bool
  loading : Bool
  checkingStatus : Bool
deriving DecidableEq, Repr

/-- Outcome of the initial `isFollowing` check as seen by the component. -/
inductive CheckOutcome where
  | okResult (following : Bool) (err : Option Err)
  | thrown
deriving DecidableEq, Repr

/-- FollowButton.checkFollowStatus: anonymous viewer or self-view only
clears `checkingStatus`; otherwise the check result is applied when it
carries no error, is only logged when it does, and an exception is caught;
the `finally` block clears `checkingStatus` in every path. -/
def checkFollowStatus (user : Option String) (targetUserId : String)
    (st : FBState) (o : CheckOutcome) : FBState :=
  match user with
  | none => { st with checkingStatus := false }
  | some u =>
      if u = targetUserId then { st with checkingStatus := false }
      else
        match o with
        | CheckOutcome.okResult following err =>
            match err with
            | some _ => { st with checkingStatus := false }
            | none => { st with isFollowing := following, checkingStatus := false }
        | CheckOutcome.thrown => { st with checkingStatus := false }

/-- Observable effects of a Follow Button press: the remote call issued,
a surfaced alert, or the parent callback with the new state. -/
inductive FBAction where
  | callFollow (target : String)
  | callUnfollow (target : String)
  | alert (msg : String)
  | notifyParent (isFollowing : Bool)
deriving DecidableEq, Repr

/-- Outcome of the follow/unfollow call as seen by the component. -/
inductive RemoteOutcome where
  | reply (err : Option Err)
  | thrown
deriving DecidableEq, Repr

/-- FollowButton.handleToggleFollow: returns unchanged with no effects
when anonymous or busy; otherwise issues follow or unfollow per the
current displayed state, flips the state and notifies the parent only on
success, and on failure surfaces an alert leaving the state unchanged
(the `finally` block clears `loading`). -/
def handleToggleFollow (user : Option String) (targetUserId : String)
    (st : FBState) (o : RemoteOutcome) : FBState × List FBAction :=
  if user.isNone || st.loading then (st, [])
  else
    match o with
    | RemoteOutcome.reply none =>
        ({ st with isFollowing := !st.isFollowing, loading := false },
         [if st.isFollowing then FBAction.callUnfollow targetUserId
          else FBAction.callFollow targetUserId,
          FBAction.notifyParent (!st.isFollowing)])
    | RemoteOutcome.reply (some _) =>
        ({ st with loading := false },
         [if st.isFollowing then FBAction.callUnfollow targetUserId
          else FBAction.callFollow targetUserId,
          FBAction.alert "Failed to update follow status"])
    | RemoteOutcome.thrown =>
        ({ st with loading := false },
         [if st.isFollowing then FBAction.callUnfollow targetUserId
          else FBAction.callFollow targetUserId,
          FBAction.alert "Failed to update follow status"])

/-- Render guard of FollowButton: the component renders nothing while the
initial check runs, for an anonymous viewer, or on the viewer's own
profile. -/
def followButtonRendered (user : Option String) (targetUserId : String)
    (st : FBState) : Bool :=
  match user with
  | none => false
  | some u => !st.checkingStatus && u != targetUserId

/-- A press on the Follow Button: deliverable only when the component is
rendered and not disabled (`disabled` is the busy flag); then it runs
`handleToggleFollow`. -/
def pressFollowButton (user : Option String) (targetUserId : String)
    (st : FBState) (o : RemoteOutcome) : FBState × List FBAction :=
  if followButtonRendered user targetUserId st = false then (st, [])
  else if st.loading then (st, [])
  else handleToggleFollow user targetUserId st o

/-- UserProfileScreen.handleFollowChange: the parent callback updates the
displayed followers count by plus or minus one from the new boolean state,
with no re-fetch. -/
def handleFollowChange (prev : Int) (isFollowing : Bool) : Int :=
  if isFollowing then prev + 1 else prev - 1


/-! Helper lemmas about `countP` and `filter` used by the like-toggle
claims. -/

theorem countP_and_split {α : Type} (l : List α) (q pm : α → Bool) :
    l.countP q
      = l.countP (fun x => q x && pm x) + l.countP (fun x => q x && !pm x) := by
  induction l with
  | nil => simp
  | cons a t ih =>
      cases hq : q a <;> cases hp : pm a <;>
        simp [List.countP_cons, hq, hp, ih] <;> omega

theorem countP_congr_on {α : Type} (l : List α) (p q : α → Bool)
    (h : ∀ x ∈ l, p x = q x) : l.countP p = l.countP q := by
  induction l with
  | nil => rfl
  | cons a t ih =>
      have ha := h a (List.mem_cons_self a t)
      simp [List.countP_cons, ha,
        ih fun x hx => h x (List.mem_cons_of_mem a hx)]

theorem pair_pred_eq {x : String × String} {u w : String} :
    (x.1 == u && x.2 == w) = true ↔ x = (u, w) := by
  obtain ⟨x1, x2⟩ := x
  simp [Prod.ext_iff]

theorem filter_pair_singleton (l : List (String × String)) (u w : String)
    (h : l.countP (fun x => x.1 == u && x.2 == w) = 1) :
    l.filter (fun x => x.1 == u && x.2 == w) = [(u, w)] := by
  have hlen : (l.filter (fun x => x.1 == u && x.2 == w)).length = 1 := by
    rw [← List.countP_eq_length_filter]
    exact h
  rcases hfe : l.filter (fun x => x.1 == u && x.2 == w) with - | ⟨a, rest⟩
  · rw [hfe] at hlen
    simp at hlen
  · rcases rest with - | ⟨b, t⟩
    · have ha : a ∈ l.filter (fun x => x.1 == u && x.2 == w) := by
        rw [hfe]
        exact List.mem_singleton.mpr rfl
      have hpa := (List.mem_filter.mp ha).2
      rw [hfe, pair_pred_eq.mp hpa]
    · rw [hfe] at hlen
      simp at hlen

/-- C1: after `signOut()` returns, the Session Store's identity, credential
and profile fields are all absent, regardless of the remote sign-out
outcome and of the sequence of prior completed Session Store operations. -/
theorem signOut_clears_all_fields (st0 : AuthState) (ops : List AuthOp)
    (e : Option Err) :
    (signOut (ops.foldl applyAuthOp st0) e).user = none
      ∧ (signOut (ops.foldl applyAuthOp st0) e).session = none
      ∧ (signOut (ops.foldl applyAuthOp st0) e).profile = none :=
  ⟨rfl, rfl, rfl⟩

/-- C9: `updateProfile` called while no identity is set returns the
unauthenticated error, issues no gateway request, and leaves the stored
state, in particular the profile, untouched. -/
theorem updateProfile_unauthenticated (st : AuthState)
    (remote : Option Profile × Option Err) (h : st.user = none) :
    updateProfile st remote
      = (st, some (Err.notAuthenticated "No user logged in"), []) := by
  simp only [updateProfile, h]

/-- C9 witness. -/
theorem updateProfile_unauthenticated_witness :
    updateProfile ⟨none, none, none, false⟩ (none, none)
      = (⟨none, none, none, false⟩,
         some (Err.notAuthenticated "No user logged in"), []) :=
  updateProfile_unauthenticated ⟨none, none, none, false⟩ (none, none) rfl

/-- C3: for an authenticated viewer and a target with no follow edge from
the viewer, `isFollowing` returns `following = false` with no error: the
no-row `PGRST116` outcome of the single-row check is mapped to a normal
negative result, never a failure. -/
theorem isFollowing_no_edge (uid targetId : String) (db : RemoteDB)
    (h : ∀ x ∈ db.follows, ¬(x.1 = uid ∧ x.2 = targetId)) :
    isFollowing (some uid) db targetId
      = (false, none, [Req.authGetUser, Req.followsSelect]) := by
  have hf : db.follows.filter (fun e => e.1 == uid && e.2 == targetId) = [] := by
    refine List.filter_eq_nil_iff.mpr ?_
    intro a ha
    simpa using h a ha
  simp [isFollowing, hf, singleRow]

/-- C3 witness. -/
theorem isFollowing_no_edge_witness :
    isFollowing (some "u") ⟨[("a", "b")], [], []⟩ "t"
      = (false, none, [Req.authGetUser, Req.followsSelect]) :=
  isFollowing_no_edge "u" "t" ⟨[("a", "b")], [], []⟩ (by decide)

/-- C10: for an authenticated user who follows no one,
`getFollowingWorkouts` short-circuits to an empty list with no error and
never issues the workouts query. -/
theorem getFollowingWorkouts_empty_follow_set (uid : String) (db : RemoteDB)
    (h : ∀ x ∈ db.follows, x.1 ≠ uid) :
    getFollowingWorkouts (some uid) none db
        = ([], none, [Req.authGetUser, Req.followsSelect])
      ∧ Req.workoutsSelect ∉ (getFollowingWorkouts (some uid) none db).2.2 := by
  have hf : db.follows.filter (fun e => e.1 == uid) = [] := by
    refine List.filter_eq_nil_iff.mpr ?_
    intro a ha
    simpa using h a ha
  constructor
  · simp [getFollowingWorkouts, hf]
  · simp [getFollowingWorkouts, hf]

/-- C10 witness. -/
theorem getFollowingWorkouts_empty_follow_set_witness :
    getFollowingWorkouts (some "u") none ⟨[("a", "b")], [], [⟨"w", "a", true, 0⟩]⟩
        = ([], none, [Req.authGetUser, Req.followsSelect])
      ∧ Req.workoutsSelect
          ∉ (getFollowingWorkouts (some "u") none
              ⟨[("a", "b")], [], [⟨"w", "a", true, 0⟩]⟩).2.2 :=
  getFollowingWorkouts_empty_follow_set "u"
    ⟨[("a", "b")], [], [⟨"w", "a", true, 0⟩]⟩ (by decide)

/-- C5: a failed Home-screen fetch (error result or exception) leaves the
displayed list untouched; the loading flag ends false in every outcome,
the refreshing flag ends false after a completed pull-to-refresh and stays
false after a focus fetch, and a pull-to-refresh in flight neither clears
the items nor touches the loading flag. -/
theorem home_fetch_frame_and_flags (st : HomeState) (o ofail : FetchOutcome)
    (hr : st.refreshing = false) (hf : ofail.isSuccess = false) :
    (fetchWorkoutsRun st false ofail).workouts = st.workouts
      ∧ (onRefreshRun st ofail).workouts = st.workouts
      ∧ (fetchWorkoutsRun st false o).loading = false
      ∧ (fetchWorkoutsRun st false o).refreshing = false
      ∧ (onRefreshRun st o).loading = false
      ∧ (onRefreshRun st o).refreshing = false
      ∧ (onRefreshStart st).workouts = st.workouts
      ∧ (onRefreshStart st).loading = st.loading := by
  cases ofail <;> cases o <;>
    simp_all [fetchWorkoutsRun, onRefreshRun, onRefreshStart,
      FetchOutcome.isSuccess]

/-- C5 witness. -/
theorem home_fetch_frame_and_flags_witness :
    (fetchWorkoutsRun ⟨[⟨"w", "a", true, 0⟩], false, false⟩ false
        FetchOutcome.failure).workouts = [⟨"w", "a", true, 0⟩]
      ∧ (onRefreshRun ⟨[⟨"w", "a", true, 0⟩], false, false⟩
          FetchOutcome.failure).workouts = [⟨"w", "a", true, 0⟩]
      ∧ (fetchWorkoutsRun ⟨[⟨"w", "a", true, 0⟩], false, false⟩ false
          (FetchOutcome.success [])).loading = false
      ∧ (fetchWorkoutsRun ⟨[⟨"w", "a", true, 0⟩], false, false⟩ false
          (FetchOutcome.success [])).refreshing = false
      ∧ (onRefreshRun ⟨[⟨"w", "a", true, 0⟩], false, false⟩
          (FetchOutcome.success [])).loading = false
      ∧ (onRefreshRun ⟨[⟨"w", "a", true, 0⟩], false, false⟩
          (FetchOutcome.success [])).refreshing = false
      ∧ (onRefreshStart ⟨[⟨"w", "a", true, 0⟩], false, false⟩).workouts
          = [⟨"w", "a", true, 0⟩]
      ∧ (onRefreshStart ⟨[⟨"w", "a", true, 0⟩], false, false⟩).loading = false :=
  home_fetch_frame_and_flags ⟨[⟨"w", "a", true, 0⟩], false, false⟩
    (FetchOutcome.success []) FetchOutcome.failure rfl rfl

/-- C7 counterexample: with an authenticated viewer on another user's
profile, a failed initial follow-existence check (façade error) ends with
the checking flag cleared, so the render guard shows the component, in the
default not-following state — the component does not remain hidden. -/
theorem followButton_failed_check_visible :
    checkFollowStatus (some "a") "b" ⟨false, false, true⟩
        (CheckOutcome.okResult false (some (Err.pg "500")))
      = ⟨false, false, false⟩
      ∧ followButtonRendered (some "a") "b" ⟨false, false, false⟩ = true := by
  constructor
  · rfl
  · rfl

/-- C7 as amended: when the initial follow-existence check fails (error
result or exception), the component stops checking and renders in its
previous (default not-following) displayed state rather than adopting the
failed response; it does not stay hidden. -/
theorem followButton_failed_check_renders (u targetUserId : String)
    (st : FBState) (b : Bool) (e : Err) (hne : u ≠ targetUserId) :
    (checkFollowStatus (some u) targetUserId st
        (CheckOutcome.okResult b (some e))).checkingStatus = false
      ∧ (checkFollowStatus (some u) targetUserId st
          (CheckOutcome.okResult b (some e))).isFollowing = st.isFollowing
      ∧ followButtonRendered (some u) targetUserId
          (checkFollowStatus (some u) targetUserId st
            (CheckOutcome.okResult b (some e))) = true
      ∧ (checkFollowStatus (some u) targetUserId st
          CheckOutcome.thrown).checkingStatus = false
      ∧ (checkFollowStatus (some u) targetUserId st
          CheckOutcome.thrown).isFollowing = st.isFollowing
      ∧ followButtonRendered (some u) targetUserId
          (checkFollowStatus (some u) targetUserId st
            CheckOutcome.thrown) = true := by
  simp [checkFollowStatus, followButtonRendered, hne]

/-- C7 amended-claim witness. -/
theorem followButton_failed_check_renders_witness :
    (checkFollowStatus (some "a") "b" ⟨true, false, true⟩
        (CheckOutcome.okResult false (some (Err.pg "500")))).checkingStatus = false
      ∧ (checkFollowStatus (some "a") "b" ⟨true, false, true⟩
          (CheckOutcome.okResult false (some (Err.pg "500")))).isFollowing = true
      ∧ followButtonRendered (some "a") "b"
          (checkFollowStatus (some "a") "b" ⟨true, false, true⟩
            (CheckOutcome.okResult false (some (Err.pg "500")))) = true
      ∧ (checkFollowStatus (some "a") "b" ⟨true, false, true⟩
          CheckOutcome.thrown).checkingStatus = false
      ∧ (checkFollowStatus (some "a") "b" ⟨true, false, true⟩
          CheckOutcome.thrown).isFollowing = true
      ∧ followButtonRendered (some "a") "b"
          (checkFollowStatus (some "a") "b" ⟨true, false, true⟩
            CheckOutcome.thrown) = true :=
  followButton_failed_check_renders "a" "b" ⟨true, false, true⟩ false
    (Err.pg "500") (by decide)

/-- C8: a press on the Follow Button while a toggle is in flight (busy) or
while the initial check is still running is ignored: the state is
unchanged and no action, in particular no follow or unfollow call, is
issued.  While checking the render guard keeps the component unmounted,
while busy the button is disabled and the handler's own guard returns. -/
theorem toggle_ignored_busy_or_checking (user : Option String)
    (targetUserId : String) (st : FBState) (o : RemoteOutcome)
    (h : st.loading = true ∨ st.checkingStatus = true) :
    pressFollowButton user targetUserId st o = (st, []) := by
  rcases h with h | h
  · unfold pressFollowButton
    split
    · rfl
    · simp [h]
  · unfold pressFollowButton followButtonRendered
    cases user with
    | none => simp
    | some u => simp [h]

/-- C8 witness. -/
theorem toggle_ignored_busy_or_checking_witness :
    pressFollowButton (some "a") "b" ⟨false, true, false⟩
        (RemoteOutcome.reply none)
      = (⟨false, true, false⟩, []) :=
  toggle_ignored_busy_or_checking (some "a") "b" ⟨false, true, false⟩
    (RemoteOutcome.reply none) (Or.inl rfl)

/-- C2: every identity-scoped write of the façade (followUser,
unfollowUser, toggleWorkoutLike, createWorkout) resolves the acting
identity from the current session: with no session each returns the
"Not authenticated" error with the database untouched and only the auth
lookup issued; with a session the inserted follow edge is keyed by the
session user, unfollow and like-toggle touch only rows owned by the
session user, and the created workout's owner is the session user
regardless of the `user_id` field of the passed-in record. -/
theorem identity_scoped_writes (db : RemoteDB) (targetId wid : String)
    (w : WorkoutInsert) (uid : String) :
    followUser none db targetId
        = (some (Err.notAuthenticated "Not authenticated"), db, [Req.authGetUser])
      ∧ unfollowUser none db targetId
        = (some (Err.notAuthenticated "Not authenticated"), db, [Req.authGetUser])
      ∧ toggleWorkoutLike none db wid
        = (none, some (Err.notAuthenticated "Not authenticated"), db,
           [Req.authGetUser])
      ∧ createWorkout none db w
        = (none, some (Err.notAuthenticated "Not authenticated"), db,
           [Req.authGetUser])
      ∧ (followUser (some uid) db targetId).2.1.follows
          = db.follows ++ [(uid, targetId)]
      ∧ (∀ x, x.1 ≠ uid →
          (x ∈ (unfollowUser (some uid) db targetId).2.1.follows
            ↔ x ∈ db.follows))
      ∧ (∀ x, x.1 ≠ uid →
          (x ∈ (toggleWorkoutLike (some uid) db wid).2.2.1.likes
            ↔ x ∈ db.likes))
      ∧ (createWorkout (some uid) db w).2.2.1.workouts
          = db.workouts ++ [⟨w.id, uid, w.is_public, w.created_at⟩] := by
  refine ⟨rfl, rfl, rfl, rfl, rfl, ?_, ?_, rfl⟩
  · intro x hx
    simp [unfollowUser, List.mem_filter, hx]
  · intro x hx
    rcases hsel : (singleRow (db.likes.filter
        (fun l => l.1 == uid && l.2 == wid))).1 with - | a
    · simp [toggleWorkoutLike, hsel, List.mem_append]
      intro hx1
      exact absurd (congrArg Prod.fst hx1) hx
    · simp [toggleWorkoutLike, hsel, List.mem_filter, hx]

/-- C2 witness. -/
theorem identity_scoped_writes_witness :
    followUser none ⟨[("x", "y")], [("x", "w1")], []⟩ "t"
        = (some (Err.notAuthenticated "Not authenticated"),
           ⟨[("x", "y")], [("x", "w1")], []⟩, [Req.authGetUser])
      ∧ (followUser (some "u") ⟨[("x", "y")], [("x", "w1")], []⟩ "t").2.1.follows
          = [("x", "y"), ("u", "t")]
      ∧ (("x", "y")
          ∈ (unfollowUser (some "u") ⟨[("x", "y")], [("x", "w1")], []⟩
              "t").2.1.follows
          ↔ ("x", "y") ∈ [("x", "y")])
      ∧ (("x", "w1")
          ∈ (toggleWorkoutLike (some "u") ⟨[("x", "y")], [("x", "w1")], []⟩
              "w1").2.2.1.likes
          ↔ ("x", "w1") ∈ [("x", "w1")])
      ∧ (createWorkout (some "u") ⟨[("x", "y")], [("x", "w1")], []⟩
            ⟨"id1", "evil", true, 0⟩).2.2.1.workouts
          = [⟨"id1", "u", true, 0⟩] := by
  have h := identity_scoped_writes ⟨[("x", "y")], [("x", "w1")], []⟩ "t" "w1"
    ⟨"id1", "evil", true, 0⟩ "u"
  exact ⟨h.1, h.2.2.2.2.1, h.2.2.2.2.2.1 ("x", "y") (by decide),
    h.2.2.2.2.2.2.1 ("x", "w1") (by decide), h.2.2.2.2.2.2.2⟩

/-- C6: pressing the Follow Button in the not-following state issues the
follow call for the target; on success the displayed state flips to
following and the parent callback fires with the new state, whose effect
on the viewed profile is a plain plus-one on the followers count with no
re-fetch; on a failed call (error reply or exception) the state is
unchanged and only the non-fatal alert is surfaced. -/
theorem follow_press_not_following (u targetUserId : String) (st : FBState)
    (c : Int) (e : Err) (hne : u ≠ targetUserId) (hnf : st.isFollowing = false)
    (hl : st.loading = false) (hc : st.checkingStatus = false) :
    pressFollowButton (some u) targetUserId st (RemoteOutcome.reply none)
        = ({ st with isFollowing := true },
           [FBAction.callFollow targetUserId, FBAction.notifyParent true])
      ∧ handleFollowChange c true = c + 1
      ∧ pressFollowButton (some u) targetUserId st (RemoteOutcome.reply (some e))
        = (st, [FBAction.callFollow targetUserId,
                FBAction.alert "Failed to update follow status"])
      ∧ pressFollowButton (some u) targetUserId st RemoteOutcome.thrown
        = (st, [FBAction.callFollow targetUserId,
                FBAction.alert "Failed to update follow status"]) := by
  cases st with
  | mk f l ch =>
      simp only [FBState.isFollowing] at hnf
      simp only [FBState.loading] at hl
      simp only [FBState.checkingStatus] at hc
      subst hnf
      subst hl
      subst hc
      simp [pressFollowButton, followButtonRendered, handleToggleFollow,
        handleFollowChange, hne]

/-- C6 witness. -/
theorem follow_press_not_following_witness :
    pressFollowButton (some "a") "b" ⟨false, false, false⟩
        (RemoteOutcome.reply none)
        = (⟨true, false, false⟩,
           [FBAction.callFollow "b", FBAction.notifyParent true])
      ∧ handleFollowChange 5 true = 6
      ∧ pressFollowButton (some "a") "b" ⟨false, false, false⟩
          (RemoteOutcome.reply (some (Err.pg "500")))
        = (⟨false, false, false⟩,
           [FBAction.callFollow "b",
            FBAction.alert "Failed to update follow status"])
      ∧ pressFollowButton (some "a") "b" ⟨false, false, false⟩
          RemoteOutcome.thrown
        = (⟨false, false, false⟩,
           [FBAction.callFollow "b",
            FBAction.alert "Failed to update follow status"]) :=
  follow_press_not_following "a" "b" ⟨false, false, false⟩ 5 (Err.pg "500")
    (by decide) rfl rfl rfl

/-! Reduction lemmas for `toggleWorkoutLike` under a known result of the
existence check. -/

theorem toggle_eq_insert (uid wid : String) (db : RemoteDB)
    (hf : db.likes.filter (fun l => l.1 == uid && l.2 == wid) = []) :
    toggleWorkoutLike (some uid) db wid
      = (some true, none, { db with likes := db.likes ++ [(uid, wid)] },
         [Req.authGetUser, Req.likesSelect uid wid, Req.likesInsert uid wid]) := by
  simp only [toggleWorkoutLike]
  rw [hf]
  rfl

theorem toggle_eq_delete (uid wid : String) (db : RemoteDB) (a : String × String)
    (hf : db.likes.filter (fun l => l.1 == uid && l.2 == wid) = [a]) :
    toggleWorkoutLike (some uid) db wid
      = (some false, none,
         { db with likes :=
             db.likes.filter (fun l => !(l.1 == uid && l.2 == wid)) },
         [Req.authGetUser, Req.likesSelect uid wid, Req.likesDelete uid wid]) := by
  simp only [toggleWorkoutLike]
  rw [hf]
  rfl

/-- C4: for an authenticated user, under the remote uniqueness constraint
on likes (at most one row per user-workout pair), `toggleWorkoutLike`
first re-derives liked state from the remote single-row existence check
(the request trace shows the select before the write), reports
`liked = false` and deletes when the like exists, reports `liked = true`
and inserts when it does not; two successive successful toggles restore
the like set and the aggregate like count seen by the next list fetch,
and a single toggle from not-liked raises that workout's count by one. -/
theorem toggle_like_twice_restores (uid wid : String) (db : RemoteDB)
    (h : db.likes.countP (fun l => l.1 == uid && l.2 == wid) ≤ 1) :
    ((uid, wid) ∈ db.likes →
        (toggleWorkoutLike (some uid) db wid).1 = some false)
      ∧ ((uid, wid) ∉ db.likes →
          (toggleWorkoutLike (some uid) db wid).1 = some true)
      ∧ (toggleWorkoutLike (some uid) db wid).2.1 = none
      ∧ (toggleWorkoutLike (some uid)
          (toggleWorkoutLike (some uid) db wid).2.2.1 wid).2.1 = none
      ∧ ((uid, wid) ∉ db.likes →
          likeCount (toggleWorkoutLike (some uid) db wid).2.2.1 wid
            = likeCount db wid + 1)
      ∧ (∀ w, likeCount (toggleWorkoutLike (some uid)
            (toggleWorkoutLike (some uid) db wid).2.2.1 wid).2.2.1 w
          = likeCount db w)
      ∧ (∀ x, x ∈ (toggleWorkoutLike (some uid)
            (toggleWorkoutLike (some uid) db wid).2.2.1 wid).2.2.1.likes
          ↔ x ∈ db.likes)
      ∧ ((uid, wid) ∈ db.likes →
          (toggleWorkoutLike (some uid) db wid).2.2.2
            = [Req.authGetUser, Req.likesSelect uid wid,
               Req.likesDelete uid wid])
      ∧ ((uid, wid) ∉ db.likes →
          (toggleWorkoutLike (some uid) db wid).2.2.2
            = [Req.authGetUser, Req.likesSelect uid wid,
               Req.likesInsert uid wid]) := by
  by_cases hm : (uid, wid) ∈ db.likes
  · -- like present: the first toggle deletes, the second re-inserts
    have hpm : ((uid, wid).1 == uid && (uid, wid).2 == wid) = true := by simp
    have hpos : 0 < db.likes.countP (fun l => l.1 == uid && l.2 == wid) :=
      List.countP_pos_iff.mpr ⟨(uid, wid), hm, hpm⟩
    have hone : db.likes.countP (fun l => l.1 == uid && l.2 == wid) = 1 := by
      omega
    have hfil := filter_pair_singleton db.likes uid wid hone
    have e1 := toggle_eq_delete uid wid db (uid, wid) hfil
    have hfil2 : (db.likes.filter
        (fun l => !(l.1 == uid && l.2 == wid))).filter
          (fun l => l.1 == uid && l.2 == wid) = [] := by
      refine List.filter_eq_nil_iff.mpr ?_
      intro a ha
      have hha := (List.mem_filter.mp ha).2
      simp only [Bool.not_eq_true'] at hha
      simp [hha]
    have e2 := toggle_eq_insert uid wid
      { db with likes :=
          db.likes.filter (fun l => !(l.1 == uid && l.2 == wid)) } hfil2
    refine ⟨fun _ => by simp only [e1], fun hnm => absurd hm hnm,
      by simp only [e1], by simp only [e1, e2], fun hnm => absurd hm hnm,
      ?_, ?_, fun _ => by simp only [e1], fun hnm => absurd hm hnm⟩
    · -- aggregate like count restored after the second toggle
      intro w
      simp only [e1, e2, likeCount, workoutLikes, List.length_map,
        List.filter_append, List.length_append]
      rw [← List.countP_eq_length_filter, ← List.countP_eq_length_filter,
        ← List.countP_eq_length_filter, List.countP_filter]
      rw [countP_and_split db.likes (fun l => l.2 == w)
        (fun l => l.1 == uid && l.2 == wid)]
      by_cases hw : wid = w
      · subst hw
        have hc1 : db.likes.countP
            (fun x => x.2 == wid && (x.1 == uid && x.2 == wid))
              = db.likes.countP (fun x => x.1 == uid && x.2 == wid) := by
          refine countP_congr_on _ _ _ ?_
          intro x hx
          cases hp : (x.1 == uid && x.2 == wid) with
          | true =>
              have hx2 : (x.2 == wid) = true := by
                have hxe := pair_pred_eq.mp hp
                simp [hxe]
              simp [hx2, hp]
          | false => simp [hp]
        have hone2 : List.countP (fun l => l.2 == wid) [(uid, wid)] = 1 := by
          simp
        rw [hc1, hone, hone2]
        exact Nat.add_comm _ _
      · have hc0 : db.likes.countP
            (fun x => x.2 == w && (x.1 == uid && x.2 == wid)) = 0 := by
          refine List.countP_eq_zero.mpr ?_
          intro a ha
          simp only [Bool.and_eq_true, beq_iff_eq]
          rintro ⟨h1, -, h3⟩
          exact hw (h3.symm.trans h1)
        have hlast : ([(uid, wid)].countP (fun l => l.2 == w)) = 0 := by
          simp only [List.countP_cons, List.countP_nil, beq_iff_eq]
          simp [hw]
        rw [hc0, hlast]
        omega
    · -- like set restored after the second toggle
      intro x
      simp only [e1, e2, List.mem_append, List.mem_filter,
        List.mem_singleton]
      constructor
      · rintro (⟨hx, -⟩ | hx)
        · exact hx
        · rw [hx]
          exact hm
      · intro hx
        by_cases hp : (x.1 == uid && x.2 == wid) = true
        · right
          exact pair_pred_eq.mp hp
        · left
          refine ⟨hx, ?_⟩
          simp only [Bool.not_eq_true] at hp
          simp [hp]
  · -- like absent: the first toggle inserts, the second deletes it again
    have hzero : ∀ x ∈ db.likes, (x.1 == uid && x.2 == wid) = false := by
      intro x hx
      cases hp : (x.1 == uid && x.2 == wid) with
      | true => exact absurd (pair_pred_eq.mp hp ▸ hx) hm
      | false => rfl
    have hfil : db.likes.filter (fun l => l.1 == uid && l.2 == wid) = [] := by
      refine List.filter_eq_nil_iff.mpr ?_
      intro a ha
      simp [hzero a ha]
    have e1 := toggle_eq_insert uid wid db hfil
    have hfil2 : ((db.likes ++ [(uid, wid)]).filter
        (fun l => l.1 == uid && l.2 == wid)) = [(uid, wid)] := by
      rw [List.filter_append, hfil]
      simp
    have hrestore : ((db.likes ++ [(uid, wid)]).filter
        (fun l => !(l.1 == uid && l.2 == wid))) = db.likes := by
      rw [List.filter_append]
      have hself : db.likes.filter
          (fun l => !(l.1 == uid && l.2 == wid)) = db.likes := by
        refine List.filter_eq_self.mpr ?_
        intro a ha
        simp [hzero a ha]
      rw [hself]
      simp
    have e2 := toggle_eq_delete uid wid
      { db with likes := db.likes ++ [(uid, wid)] } (uid, wid) hfil2
    refine ⟨fun hmm => absurd hmm hm, fun _ => by simp only [e1],
      by simp only [e1], by simp only [e1, e2], ?_, ?_, ?_,
      fun hmm => absurd hmm hm, fun _ => by simp only [e1]⟩
    · -- single toggle from not-liked raises the count by one
      rintro -
      simp only [e1, likeCount, workoutLikes, List.length_map,
        List.filter_append, List.length_append]
      simp
    · -- aggregate like count restored after the second toggle
      intro w
      simp only [e1, e2, likeCount, workoutLikes]
      rw [hrestore]
    · -- like set restored after the second toggle
      intro x
      simp only [e1, e2]
      rw [hrestore]

/-- C4 witness. -/
theorem toggle_like_twice_restores_witness :
    (("u", "w") ∈ [("u", "w"), ("v", "w")] →
        (toggleWorkoutLike (some "u") ⟨[], [("u", "w"), ("v", "w")], []⟩
            "w").1 = some false)
      ∧ likeCount (toggleWorkoutLike (some "u")
            (toggleWorkoutLike (some "u")
              ⟨[], [("u", "w"), ("v", "w")], []⟩ "w").2.2.1 "w").2.2.1 "w"
          = likeCount ⟨[], [("u", "w"), ("v", "w")], []⟩ "w"
      ∧ (("x", "y") ∈ (toggleWorkoutLike (some "u")
            (toggleWorkoutLike (some "u")
              ⟨[], [("u", "w"), ("v", "w")], []⟩ "w").2.2.1 "w").2.2.1.likes
          ↔ ("x", "y") ∈ [("u", "w"), ("v", "w")]) := by
  have h := toggle_like_twice_restores "u" "w"
    ⟨[], [("u", "w"), ("v", "w")], []⟩ (by decide)
  exact ⟨h.1, h.2.2.2.2.2.1 "w", h.2.2.2.2.2.2.1 ("x", "y")⟩
